import Mathlib

/-!
Verification of the buildcores render client core: a shallow embedding of the
sprite-viewer pipeline (frame arithmetic, request building, change-detection
equality, the async job poll loop, sprite metadata publication, the bounce
animation driver, the source-rectangle extraction and the viewer state
machine), with theorems settling the specified properties.

JS numbers are modelled as rationals; JS `%` (an exact IEEE remainder) and
`Math.round`/`Math.floor`/`Math.trunc` are modelled exactly over ℚ.
-/

namespace RenderClient

/-- JS truncation toward zero (`Math.trunc`), the rounding used by the
IEEE remainder operator `%`. -/
def jsTrunc (q : ℚ) : ℤ := if 0 ≤ q then ⌊q⌋ else ⌈q⌉

/-- The JS `%` operator on finite numbers: the remainder with the sign of the
dividend, `x % y = x - y * trunc (x / y)`. -/
def jsMod (x y : ℚ) : ℚ := x - y * jsTrunc (x / y)

/-- `Math.round`: round half toward positive infinity. -/
def jsRound (q : ℚ) : ℤ := ⌊q + 1 / 2⌋

/-- `src/unnamed/part_004` lines 15–31 (`calculateCircularFrame`): map a drag
displacement onto a frame, wrapping circularly into `[0, totalFrames)`. -/
def calculateCircularFrame (startFrame deltaX sensitivity totalFrames : ℚ) : ℚ :=
  let frameDelta := deltaX * sensitivity
  let newFrame := startFrame + frameDelta
  let wrapped := jsMod newFrame totalFrames
  if wrapped < 0 then wrapped + totalFrames else wrapped

/-- On a positive modulus, the JS remainder followed by the negative-wrap
correction is exactly the mathematical modulus into `[0, t)`. -/
theorem jsMod_wrap_eq (x t : ℚ) (ht : 0 < t) :
    (if jsMod x t < 0 then jsMod x t + t else jsMod x t) = x - t * ⌊x / t⌋ := by
  have ht' : t ≠ 0 := ne_of_gt ht
  set q : ℚ := x / t with hq_def
  have hx : x = t * q := by rw [hq_def]; field_simp
  have hfr : Int.fract q = q - ⌊q⌋ := rfl
  have hf0 : 0 ≤ Int.fract q := Int.fract_nonneg q
  have hf1 : Int.fract q < 1 := Int.fract_lt_one q
  have hTF : x - t * ⌊q⌋ = t * Int.fract q := by rw [hfr, hx]; ring
  rcases le_or_lt 0 q with hq | hq
  · have htr : jsTrunc q = ⌊q⌋ := by simp [jsTrunc, hq]
    have hmod : jsMod x t = t * Int.fract q := by
      rw [jsMod, ← hq_def, htr]
      exact hTF
    have hnonneg : 0 ≤ jsMod x t := by
      rw [hmod]; exact mul_nonneg ht.le hf0
    rw [if_neg (not_lt.mpr hnonneg), hmod, hTF]
  · have htr : jsTrunc q = ⌈q⌉ := by simp [jsTrunc, not_le.mpr hq]
    by_cases hint : Int.fract q = 0
    · have hqz : (⌊q⌋ : ℚ) = q := by rw [hfr] at hint; linarith
      have hcl : ⌈q⌉ = ⌊q⌋ :=
        le_antisymm (Int.ceil_le.mpr (le_of_eq hqz.symm)) (Int.floor_le_ceil q)
      have hmod : jsMod x t = 0 := by
        rw [jsMod, ← hq_def, htr, hcl, hTF, hint, mul_zero]
      rw [hmod, if_neg (by norm_num)]
      rw [hTF, hint, mul_zero]
    · have hflq : (⌊q⌋ : ℚ) < q := by
        rw [hfr] at hint
        exact lt_of_le_of_ne (Int.floor_le q) fun h => hint (by rw [h, sub_self])
      have hcl : ⌈q⌉ = ⌊q⌋ + 1 := by
        have h1 : ⌈q⌉ ≤ ⌊q⌋ + 1 := Int.ceil_le_floor_add_one _
        have h2 : ⌊q⌋ < ⌈q⌉ := by
          exact_mod_cast lt_of_lt_of_le hflq (Int.le_ceil q)
        omega
      have hmod : jsMod x t = t * Int.fract q - t := by
        rw [jsMod, ← hq_def, htr, hcl]
        push_cast
        rw [hfr, hx]
        ring
      have hneg : jsMod x t < 0 := by
        rw [hmod]
        have : t * Int.fract q < t * 1 := mul_lt_mul_of_pos_left hf1 ht
        linarith
      rw [if_pos hneg, hmod, hTF]
      ring

/-- C1: for every `start ∈ [0, total)`, every real displacement, every
positive sensitivity and every positive frame count, `calculateCircularFrame`
returns `(start + delta·sensitivity) mod total` normalized into `[0, total)`
(negative remainders wrap by adding `total`); in particular
`calculateCircularFrame 0 7200 0.1 72 = 0`. -/
theorem calculateCircularFrame_spec (start delta sensitivity total : ℚ)
    (hstart₀ : 0 ≤ start) (hstart₁ : start < total)
    (hsens : 0 < sensitivity) (htotal : 0 < total) :
    calculateCircularFrame start delta sensitivity total
        = (start + delta * sensitivity)
          - total * ⌊(start + delta * sensitivity) / total⌋
      ∧ 0 ≤ calculateCircularFrame start delta sensitivity total
      ∧ calculateCircularFrame start delta sensitivity total < total
      ∧ calculateCircularFrame 0 7200 (1 / 10) 72 = 0 := by
  have hmain :
      calculateCircularFrame start delta sensitivity total
        = (start + delta * sensitivity)
          - total * ⌊(start + delta * sensitivity) / total⌋ := by
    unfold calculateCircularFrame
    exact jsMod_wrap_eq (start + delta * sensitivity) total htotal
  have hfract :
      calculateCircularFrame start delta sensitivity total
        = total * Int.fract ((start + delta * sensitivity) / total) := by
    rw [hmain, Int.fract]
    have ht' : total ≠ 0 := ne_of_gt htotal
    field_simp
  refine ⟨hmain, ?_, ?_, ?_⟩
  · rw [hfract]
    exact mul_nonneg htotal.le (Int.fract_nonneg _)
  · rw [hfract]
    calc total * Int.fract ((start + delta * sensitivity) / total)
        < total * 1 := by
          exact mul_lt_mul_of_pos_left (Int.fract_lt_one _) htotal
      _ = total := mul_one total
  · norm_num [calculateCircularFrame, jsMod, jsTrunc]

/-- Witness for C1 at `start = 0`, `delta = 7200`, `sensitivity = 0.1`,
`total = 72`: the displacement of ten full rotations lands back on frame 0. -/
theorem calculateCircularFrame_spec_witness :
    calculateCircularFrame 0 7200 (1 / 10) 72
        = (0 + 7200 * (1 / 10 : ℚ)) - 72 * ⌊(0 + 7200 * (1 / 10 : ℚ)) / 72⌋
      ∧ 0 ≤ calculateCircularFrame 0 7200 (1 / 10) 72
      ∧ calculateCircularFrame 0 7200 (1 / 10) 72 < 72
      ∧ calculateCircularFrame 0 7200 (1 / 10) 72 = 0 :=
  calculateCircularFrame_spec 0 7200 (1 / 10) 72 (by norm_num) (by norm_num)
    (by norm_num) (by norm_num)

/-! ## Data model (`src/src/types.ts`) -/

/-- `PartCategory` enum of `src/src/types.ts` lines 313–332. -/
inductive PartCategory
  | CPU | GPU | RAM | Motherboard | PSU | Storage | PCCase | CPUCooler | CaseFan
  deriving DecidableEq, Fintype, Repr

/-- The categories in the order `Object.values(PartCategory)` yields them. -/
def allPartCategories : List PartCategory :=
  [.CPU, .GPU, .RAM, .Motherboard, .PSU, .Storage, .PCCase, .CPUCooler, .CaseFan]

/-- `format`: `"video" | "sprite"`. -/
inductive RenderFormat
  | video | sprite
  deriving DecidableEq, Repr

/-- `profile`: `"cinematic" | "flat" | "fast"`. -/
inductive RenderProfile
  | cinematic | flat | fast
  deriving DecidableEq, Repr

/-- `frameQuality`: `"standard" | "high"`. -/
inductive FrameQuality
  | standard | high
  deriving DecidableEq, Repr

def RenderFormat.toName : RenderFormat → String
  | .video => "video"
  | .sprite => "sprite"

def RenderProfile.toName : RenderProfile → String
  | .cinematic => "cinematic"
  | .flat => "flat"
  | .fast => "fast"

def FrameQuality.toName : FrameQuality → String
  | .standard => "standard"
  | .high => "high"

/-- `GridSettings` of `src/src/types.ts` lines 650–661: every field optional. -/
structure GridSettings where
  cellThickness : Option ℚ := none
  sectionThickness : Option ℚ := none
  color : Option String := none
  fadeDistance : Option ℚ := none
  renderOrder : Option ℚ := none
  deriving DecidableEq, Repr

/-- The `parts` object mapping categories to ID arrays, kept as an
association list so key presence is tracked. Every consumer in the source
reads it as `parts[category] || []`, modelled by `partsLookup`. -/
abbrev PartsMap := List (PartCategory × List String)

/-- `parts[category] || []`. -/
def partsLookup (p : PartsMap) (c : PartCategory) : List String :=
  (p.lookup c).getD []

/-- `RenderBuildRequest` as the render paths receive it at run time: the
declared fields of `src/src/types.ts` lines 374–476 plus `cameraZoom` and
`frameQuality`, which `useSpriteRender` spreads into the request object it
hands to the API layer (`src/unnamed/part_007` lines 124–165) and which
`src/src/api.ts` reads back (`request.frameQuality`). -/
structure RenderBuildRequest where
  parts : PartsMap
  format : Option RenderFormat := none
  width : Option ℚ := none
  height : Option ℚ := none
  profile : Option RenderProfile := none
  showGrid : Option Bool := none
  cameraOffsetX : Option ℚ := none
  cameraZoom : Option ℚ := none
  gridSettings : Option GridSettings := none
  frameQuality : Option FrameQuality := none
  deriving DecidableEq, Repr

/-- `RenderByShareCodeOptions` of `src/src/types.ts` lines 666–684, again with
the run-time `cameraZoom`/`frameQuality` extras `useSpriteRender` passes
(`src/unnamed/part_007` lines 93–101). -/
structure RenderByShareCodeOptions where
  format : Option RenderFormat := none
  width : Option ℚ := none
  height : Option ℚ := none
  profile : Option RenderProfile := none
  showGrid : Option Bool := none
  cameraOffsetX : Option ℚ := none
  cameraZoom : Option ℚ := none
  gridSettings : Option GridSettings := none
  frameQuality : Option FrameQuality := none
  pollIntervalMs : Option ℕ := none
  timeoutMs : Option ℕ := none
  deriving DecidableEq, Repr

/-! ## Job-creation POST bodies (`src/src/api.ts`) -/

/-- A value of a JSON POST-body field; parts maps and grid settings are
carried structurally. -/
inductive BodyVal
  | str (s : String)
  | num (q : ℚ)
  | bool (b : Bool)
  | parts (p : PartsMap)
  | grid (g : GridSettings)
  deriving DecidableEq, Repr

/-- The conditional spread `...(x !== undefined ? { key: f x } : {})` used
throughout `src/src/api.ts` to include a field only when present. -/
def optEntry {α : Type} (o : Option α) (f : α → String × BodyVal) :
    List (String × BodyVal) :=
  match o with
  | some a => [f a]
  | none => []

theorem mem_optEntry {α : Type} (o : Option α) (f : α → String × BodyVal)
    (kv : String × BodyVal) : kv ∈ optEntry o f ↔ ∃ a, o = some a ∧ kv = f a := by
  cases o <;> simp [optEntry]

/-- The POST body built by `createRenderBuildJob`, `src/src/api.ts`
lines 178–193. -/
def createRenderBuildJobBody (request : RenderBuildRequest) :
    List (String × BodyVal) :=
  [("parts", BodyVal.parts request.parts)]
    ++ optEntry request.format (fun f => ("format", .str f.toName))
    ++ optEntry request.width (fun w => ("width", .num w))
    ++ optEntry request.height (fun h => ("height", .num h))
    ++ optEntry request.profile (fun p => ("profile", .str p.toName))
    ++ optEntry request.showGrid (fun b => ("showGrid", .bool b))
    ++ optEntry request.cameraOffsetX (fun q => ("cameraOffsetX", .num q))
    ++ optEntry request.gridSettings (fun g => ("gridSettings", .grid g))
    ++ optEntry request.frameQuality (fun q => ("frameQuality", .str q.toName))

/-- The POST body built by `createRenderByShareCodeJob`, `src/src/api.ts`
lines 445–455; `options` is an optional parameter read via `options?.field`. -/
def createRenderByShareCodeJobBody (shareCode : String)
    (options : Option RenderByShareCodeOptions) : List (String × BodyVal) :=
  [("shareCode", BodyVal.str shareCode)]
    ++ optEntry (options.bind (·.format)) (fun f => ("format", .str f.toName))
    ++ optEntry (options.bind (·.width)) (fun w => ("width", .num w))
    ++ optEntry (options.bind (·.height)) (fun h => ("height", .num h))
    ++ optEntry (options.bind (·.profile)) (fun p => ("profile", .str p.toName))
    ++ optEntry (options.bind (·.showGrid)) (fun b => ("showGrid", .bool b))
    ++ optEntry (options.bind (·.cameraOffsetX)) (fun q => ("cameraOffsetX", .num q))
    ++ optEntry (options.bind (·.gridSettings)) (fun g => ("gridSettings", .grid g))
    ++ optEntry (options.bind (·.frameQuality)) (fun q => ("frameQuality", .str q.toName))

/-- A request carrying `cameraZoom = 1.5` (as `useSpriteRender` produces for
any caller that sets the camera-zoom knob). -/
def camZoomRequest : RenderBuildRequest :=
  { parts := [(.CPU, ["7xjqsomhr"])], cameraZoom := some (3 / 2) }

/-- Counterexample to C2: a request with `cameraZoom` present yields a
job-creation body with no `cameraZoom` key at all, on both the parts-based
and the share-code path. -/
theorem createRenderJobBodies_cameraZoom_cex :
    camZoomRequest.cameraZoom = some (3 / 2)
      ∧ (createRenderBuildJobBody camZoomRequest).lookup "cameraZoom" = none
      ∧ (createRenderByShareCodeJobBody "abc123xyz"
          (some { cameraZoom := some (3 / 2) })).lookup "cameraZoom" = none := by
  refine ⟨rfl, ?_, ?_⟩ <;> rfl

/-- C2 (amended): both job-creation bodies forward width, height, profile,
showGrid, cameraOffsetX, gridSettings and frameQuality unchanged whenever
present on the request, but neither ever includes `cameraZoom`. -/
theorem createRenderJobBodies_forward_fields (request : RenderBuildRequest)
    (shareCode : String) (options : RenderByShareCodeOptions) :
    (∀ w, request.width = some w →
      ("width", BodyVal.num w) ∈ createRenderBuildJobBody request)
  ∧ (∀ h, request.height = some h →
      ("height", BodyVal.num h) ∈ createRenderBuildJobBody request)
  ∧ (∀ p, request.profile = some p →
      ("profile", BodyVal.str p.toName) ∈ createRenderBuildJobBody request)
  ∧ (∀ b, request.showGrid = some b →
      ("showGrid", BodyVal.bool b) ∈ createRenderBuildJobBody request)
  ∧ (∀ q, request.cameraOffsetX = some q →
      ("cameraOffsetX", BodyVal.num q) ∈ createRenderBuildJobBody request)
  ∧ (∀ g, request.gridSettings = some g →
      ("gridSettings", BodyVal.grid g) ∈ createRenderBuildJobBody request)
  ∧ (∀ q, request.frameQuality = some q →
      ("frameQuality", BodyVal.str q.toName) ∈ createRenderBuildJobBody request)
  ∧ (∀ v, ("cameraZoom", v) ∉ createRenderBuildJobBody request)
  ∧ (∀ w, options.width = some w →
      ("width", BodyVal.num w) ∈ createRenderByShareCodeJobBody shareCode (some options))
  ∧ (∀ h, options.height = some h →
      ("height", BodyVal.num h) ∈ createRenderByShareCodeJobBody shareCode (some options))
  ∧ (∀ p, options.profile = some p →
      ("profile", BodyVal.str p.toName) ∈ createRenderByShareCodeJobBody shareCode (some options))
  ∧ (∀ b, options.showGrid = some b →
      ("showGrid", BodyVal.bool b) ∈ createRenderByShareCodeJobBody shareCode (some options))
  ∧ (∀ q, options.cameraOffsetX = some q →
      ("cameraOffsetX", BodyVal.num q) ∈ createRenderByShareCodeJobBody shareCode (some options))
  ∧ (∀ g, options.gridSettings = some g →
      ("gridSettings", BodyVal.grid g) ∈ createRenderByShareCodeJobBody shareCode (some options))
  ∧ (∀ q, options.frameQuality = some q →
      ("frameQuality", BodyVal.str q.toName) ∈ createRenderByShareCodeJobBody shareCode (some options))
  ∧ (∀ v, ("cameraZoom", v) ∉ createRenderByShareCodeJobBody shareCode (some options)) := by
  refine ⟨?_, ?_, ?_, ?_, ?_, ?_, ?_, ?_, ?_, ?_, ?_, ?_, ?_, ?_, ?_, ?_⟩ <;>
    first
      | (intro w hw
         simp [createRenderBuildJobBody, createRenderByShareCodeJobBody, optEntry, hw])
      | (intro v
         simp [createRenderBuildJobBody, createRenderByShareCodeJobBody, mem_optEntry])

/-! ## Change-detection equality
(`src/src/hooks/useBuildRender.ts`, `src/unnamed/part_007`) -/

/-- `arePartsEqual`, `src/src/hooks/useBuildRender.ts` lines 9–40: per
category, compare raw array lengths, then the deduplicated ID sets by size
and membership. -/
def arePartsEqual (parts1 parts2 : RenderBuildRequest) : Bool :=
  allPartCategories.all fun category =>
    let arr1 := partsLookup parts1.parts category
    let arr2 := partsLookup parts2.parts category
    let set1 := arr1.dedup
    let set2 := arr2.dedup
    arr1.length == arr2.length
      && (set1.length == set2.length
      && set1.all fun id => set2.contains id)

/-- The tagged render input of `useSpriteRender`, `src/unnamed/part_007`
lines 40–59. -/
inductive SpriteRenderInput
  | parts (parts : RenderBuildRequest) (showGrid : Option Bool)
      (cameraOffsetX : Option ℚ) (cameraZoom : Option ℚ)
      (gridSettings : Option GridSettings) (frameQuality : Option FrameQuality)
  | shareCode (shareCode : String) (profile : Option RenderProfile)
      (showGrid : Option Bool) (cameraOffsetX : Option ℚ) (cameraZoom : Option ℚ)
      (gridSettings : Option GridSettings) (frameQuality : Option FrameQuality)
  deriving DecidableEq, Repr

/-- `JSON.stringify(a.gridSettings ?? {}) === JSON.stringify(b.gridSettings ?? {})`:
a missing settings object is serialized as `{}`, i.e. as the all-absent
record, and the serializations agree exactly when the records do. -/
def gridSettingsJsonEqual (a b : Option GridSettings) : Bool :=
  a.getD {} == b.getD {}

/-- `areInputsEqual`, `src/unnamed/part_007` lines 189–216. -/
def areInputsEqual (a : Option SpriteRenderInput) (b : SpriteRenderInput) : Bool :=
  match a with
  | none => false
  | some a =>
    match a, b with
    | .shareCode sc1 pr1 sg1 co1 cz1 gs1 fq1,
      .shareCode sc2 pr2 sg2 co2 cz2 gs2 fq2 =>
        sc1 == sc2 && pr1 == pr2 && sg1 == sg2 && co1 == co2 && cz1 == cz2
          && fq1 == fq2 && gridSettingsJsonEqual gs1 gs2
    | .parts p1 sg1 co1 cz1 gs1 fq1,
      .parts p2 sg2 co2 cz2 gs2 fq2 =>
        arePartsEqual p1 p2 && sg1 == sg2 && co1 == co2 && cz1 == cz2
          && fq1 == fq2 && gridSettingsJsonEqual gs1 gs2
    | _, _ => false

/-- The fetch gate of the `useSpriteRender` effect, `src/unnamed/part_007`
line 220: fetch iff the new input is not judged equal to the previous one. -/
def spriteShouldFetch (prev : Option SpriteRenderInput)
    (input : SpriteRenderInput) : Bool :=
  !areInputsEqual prev input

/-- The per-category condition of `arePartsEqual` is array-length equality
plus equality of the ID sets. -/
theorem partsCond_iff (arr1 arr2 : List String) :
    (arr1.length == arr2.length
      && (arr1.dedup.length == arr2.dedup.length
      && arr1.dedup.all fun id => arr2.dedup.contains id)) = true
    ↔ arr1.length = arr2.length ∧ arr1.toFinset = arr2.toFinset := by
  simp only [Bool.and_eq_true, beq_iff_eq, List.all_eq_true, List.elem_iff,
    List.contains, List.mem_dedup]
  constructor
  · rintro ⟨hlen, hdlen, hsub⟩
    refine ⟨hlen, ?_⟩
    have hsub' : arr1.toFinset ⊆ arr2.toFinset := by
      intro x hx
      rw [List.mem_toFinset] at hx ⊢
      exact hsub x hx
    refine Finset.eq_of_subset_of_card_le hsub' ?_
    rw [List.card_toFinset, List.card_toFinset, hdlen]
  · rintro ⟨hlen, hset⟩
    have hmem : ∀ x, x ∈ arr1 ↔ x ∈ arr2 := by
      intro x
      constructor
      · intro hx
        have hx' : x ∈ arr2.toFinset := by rw [← hset]; exact List.mem_toFinset.mpr hx
        exact List.mem_toFinset.mp hx'
      · intro hx
        have hx' : x ∈ arr1.toFinset := by rw [hset]; exact List.mem_toFinset.mpr hx
        exact List.mem_toFinset.mp hx'
    refine ⟨hlen, ?_, fun x hx => (hmem x).mp hx⟩
    rw [← List.card_toFinset, ← List.card_toFinset, hset]

/-- `arePartsEqual` holds iff each category has the same array length and the
same ID set. -/
theorem arePartsEqual_iff (r1 r2 : RenderBuildRequest) :
    arePartsEqual r1 r2 = true
      ↔ ∀ c : PartCategory,
          (partsLookup r1.parts c).length = (partsLookup r2.parts c).length
          ∧ (partsLookup r1.parts c).toFinset = (partsLookup r2.parts c).toFinset := by
  unfold arePartsEqual
  rw [List.all_eq_true]
  constructor
  · intro h c
    have hc : c ∈ allPartCategories := by cases c <;> simp [allPartCategories]
    exact (partsCond_iff _ _).mp (h c hc)
  · intro h c _
    exact (partsCond_iff _ _).mpr (h c)

/-- The two parts requests that differ only in a duplicated ID. -/
def dupRequestA : RenderBuildRequest := { parts := [(.CPU, ["a", "a"])] }

def dupRequestB : RenderBuildRequest := { parts := [(.CPU, ["a"])] }

def dupInputA : SpriteRenderInput := .parts dupRequestA none none none none none

def dupInputB : SpriteRenderInput := .parts dupRequestB none none none none none

/-- Counterexample to C3: two parts inputs with identical per-category ID
sets (duplicates collapsed), identical scalar options and identical grid
settings are judged unequal — `arePartsEqual` compares raw array lengths
first, so `["a","a"]` vs `["a"]` triggers a fetch. -/
theorem areInputsEqual_duplicates_cex :
    (∀ c : PartCategory,
        (partsLookup dupRequestA.parts c).toFinset
          = (partsLookup dupRequestB.parts c).toFinset)
      ∧ gridSettingsJsonEqual none none = true
      ∧ areInputsEqual (some dupInputA) dupInputB = false
      ∧ spriteShouldFetch (some dupInputA) dupInputB = true := by
  decide

/-- C3 (amended): two parts inputs are judged equal iff every category has
ID arrays of the same length carrying the same ID set (order-independent),
all scalar options are equal and the grid settings serialize identically
(missing treated as `{}`); a fetch is issued exactly when the new input is
not judged equal to the previous one, and the very first call (previous
input `null`) always fetches. -/
theorem areInputsEqual_parts_spec :
    (∀ (r1 r2 : RenderBuildRequest) sg1 co1 cz1 gs1 fq1 sg2 co2 cz2 gs2 fq2,
      areInputsEqual (some (.parts r1 sg1 co1 cz1 gs1 fq1))
          (.parts r2 sg2 co2 cz2 gs2 fq2) = true
        ↔ (∀ c : PartCategory,
              (partsLookup r1.parts c).length = (partsLookup r2.parts c).length
              ∧ (partsLookup r1.parts c).toFinset = (partsLookup r2.parts c).toFinset)
          ∧ sg1 = sg2 ∧ co1 = co2 ∧ cz1 = cz2 ∧ fq1 = fq2
          ∧ gs1.getD {} = gs2.getD {})
  ∧ (∀ b, spriteShouldFetch none b = true)
  ∧ (∀ a b, spriteShouldFetch (some a) b = !areInputsEqual (some a) b) := by
  refine ⟨?_, fun b => rfl, fun a b => rfl⟩
  intro r1 r2 sg1 co1 cz1 gs1 fq1 sg2 co2 cz2 gs2 fq2
  show (arePartsEqual r1 r2 && sg1 == sg2 && co1 == co2 && cz1 == cz2
          && fq1 == fq2 && gridSettingsJsonEqual gs1 gs2) = true ↔ _
  simp only [Bool.and_eq_true, beq_iff_eq, gridSettingsJsonEqual, arePartsEqual_iff]
  tauto

/-! ## Async job polling (`src/src/api.ts` lines 44–57 and 232–267) -/

/-- The `status` field of a render job response. -/
inductive JobState
  | queued | processing | completed | error
  deriving DecidableEq, Repr

/-- `RenderJobStatusResponse`, `src/src/api.ts` lines 49–57: each URL/error
field may be absent or `null` (modelled `none`) or any string, including
the empty one. -/
structure RenderJobStatusResponse where
  status : JobState
  url : Option String := none
  video_url : Option String := none
  sprite_url : Option String := none
  error : Option String := none
  deriving DecidableEq, Repr

/-- JS truthiness of an optional string: absent, `null` and `""` are falsy. -/
def strTruthy (o : Option String) : Option String :=
  match o with
  | some s => if s = "" then none else some s
  | none => none

/-- The JS `a || b` chain on optional strings. -/
def jsOrStr (a b : Option String) : Option String :=
  match strTruthy a with
  | some s => some s
  | none => b

/-- `requestedFormat === "sprite" ? sprite_url || url || undefined
: video_url || url || undefined` (`src/src/api.ts` lines 247–251). -/
def completedUrl (requestedFormat : RenderFormat)
    (status : RenderJobStatusResponse) : Option String :=
  if requestedFormat = .sprite then
    jsOrStr status.sprite_url (strTruthy status.url)
  else
    jsOrStr status.video_url (strTruthy status.url)

/-- The outcome of the `status === "completed"` branch, `src/src/api.ts`
lines 246–255. -/
def completedOutcome (requestedFormat : RenderFormat)
    (status : RenderJobStatusResponse) : Except String String :=
  match completedUrl requestedFormat status with
  | some url => .ok url
  | none => .error "Render job completed but no URL returned"

/-- `request.format ?? "video"`. -/
def requestedFormatOf (request : RenderBuildRequest) : RenderFormat :=
  request.format.getD .video

/-- The options bag of `renderBuild` (`options?: { pollIntervalMs?; timeoutMs? }`). -/
structure RenderPollOptions where
  pollIntervalMs : Option ℕ := none
  timeoutMs : Option ℕ := none
  deriving DecidableEq, Repr

/-- `options?.pollIntervalMs ?? 1500`. -/
def resolvePollIntervalMs (options : Option RenderPollOptions) : ℕ :=
  (options.bind (·.pollIntervalMs)).getD 1500

/-- `options?.timeoutMs ?? 120_000`. -/
def resolveTimeoutMs (options : Option RenderPollOptions) : ℕ :=
  (options.bind (·.timeoutMs)).getD 120000

/-- The poll loop of `renderBuild`, `src/src/api.ts` lines 242–266. The `k`-th
iteration observes status `statusAt k`, and `elapsedAt k` is `Date.now() -
start` at its timeout check; `fuel` bounds how many iterations are modelled
(`none` = the loop is still running after `fuel` polls). -/
def renderBuildPoll (requestedFormat : RenderFormat) (timeoutMs : ℕ)
    (statusAt : ℕ → RenderJobStatusResponse) (elapsedAt : ℕ → ℕ) :
    ℕ → ℕ → Option (Except String String)
  | _, 0 => none
  | k, fuel + 1 =>
    let status := statusAt k
    if status.status = .completed then
      some (completedOutcome requestedFormat status)
    else if status.status = .error then
      some (.error ((strTruthy status.error).getD "Render job failed"))
    else if timeoutMs < elapsedAt k then
      some (.error "Timed out waiting for render job to complete")
    else
      renderBuildPoll requestedFormat timeoutMs statusAt elapsedAt (k + 1) fuel

/-- Any result the poll loop produces has one of the three terminal shapes. -/
theorem renderBuildPoll_shape (requestedFormat : RenderFormat) (timeoutMs : ℕ)
    (statusAt : ℕ → RenderJobStatusResponse) (elapsedAt : ℕ → ℕ) :
    ∀ fuel k r,
      renderBuildPoll requestedFormat timeoutMs statusAt elapsedAt k fuel = some r →
        (∃ j, (statusAt j).status = .completed
            ∧ r = completedOutcome requestedFormat (statusAt j))
        ∨ (∃ j, (statusAt j).status = .error
            ∧ r = .error ((strTruthy (statusAt j).error).getD "Render job failed"))
        ∨ r = .error "Timed out waiting for render job to complete" := by
  intro fuel
  induction fuel with
  | zero =>
    intro k r h
    simp [renderBuildPoll] at h
  | succ n ih =>
    intro k r h
    rw [renderBuildPoll] at h
    split_ifs at h with h1 h2 h3
    · exact Or.inl ⟨k, h1, (Option.some_injective _ h).symm⟩
    · exact Or.inr (Or.inl ⟨k, h2, (Option.some_injective _ h).symm⟩)
    · exact Or.inr (Or.inr (Option.some_injective _ h).symm)
    · exact ih (k + 1) r h

/-- While the loop yields `none`, no iteration it covered had passed the
timeout check. -/
theorem renderBuildPoll_none (requestedFormat : RenderFormat) (timeoutMs : ℕ)
    (statusAt : ℕ → RenderJobStatusResponse) (elapsedAt : ℕ → ℕ) :
    ∀ fuel k,
      renderBuildPoll requestedFormat timeoutMs statusAt elapsedAt k fuel = none →
        ∀ j, j < fuel → ¬(timeoutMs < elapsedAt (k + j)) := by
  intro fuel
  induction fuel with
  | zero =>
    intro k _ j hj
    omega
  | succ n ih =>
    intro k h j hj
    rw [renderBuildPoll] at h
    split_ifs at h with h1 h2 h3
    · cases j with
      | zero => simpa using h3
      | succ m =>
        have := ih (k + 1) h m (by omega)
        simpa [Nat.add_assoc, Nat.add_comm 1 m] using this

/-- C5: provided the clock advances by at least the poll interval per
iteration, the `renderBuild` poll loop terminates, and with exactly one of
the three prescribed outcomes: the format-appropriate URL on `completed`
(or an error when none is usable), the server-provided (or generic) message
on `error`, and a timeout error once the configured timeout elapses; the
defaults are a 1500 ms interval and a 120000 ms timeout. -/
theorem renderBuild_poll_spec (requestedFormat : RenderFormat)
    (timeoutMs intervalMs : ℕ) (statusAt : ℕ → RenderJobStatusResponse)
    (elapsedAt : ℕ → ℕ) (hint : 0 < intervalMs)
    (helapsed : ∀ k, k * intervalMs ≤ elapsedAt k) :
    (∃ fuel r,
      renderBuildPoll requestedFormat timeoutMs statusAt elapsedAt 0 fuel = some r
      ∧ ((∃ j, (statusAt j).status = .completed
            ∧ r = completedOutcome requestedFormat (statusAt j))
        ∨ (∃ j, (statusAt j).status = .error
            ∧ r = .error ((strTruthy (statusAt j).error).getD "Render job failed"))
        ∨ r = .error "Timed out waiting for render job to complete"))
      ∧ resolvePollIntervalMs none = 1500
      ∧ resolveTimeoutMs none = 120000 := by
  refine ⟨?_, rfl, rfl⟩
  set J : ℕ := timeoutMs / intervalMs + 1 with hJ
  have hover : timeoutMs < elapsedAt J := by
    have h1 : timeoutMs / intervalMs * intervalMs + timeoutMs % intervalMs
        = timeoutMs := Nat.div_add_mod' timeoutMs intervalMs
    have h2 : timeoutMs % intervalMs < intervalMs := Nat.mod_lt _ hint
    have h3 : J * intervalMs = timeoutMs / intervalMs * intervalMs + intervalMs := by
      rw [hJ, Nat.succ_mul]
    have h4 : timeoutMs < J * intervalMs := by omega
    exact lt_of_lt_of_le h4 (helapsed J)
  rcases hcase : renderBuildPoll requestedFormat timeoutMs statusAt elapsedAt 0 (J + 1) with _ | r
  · exfalso
    have := renderBuildPoll_none requestedFormat timeoutMs statusAt elapsedAt
      (J + 1) 0 hcase J (by omega)
    simp only [Nat.zero_add] at this
    exact this hover
  · exact ⟨J + 1, r, hcase,
      renderBuildPoll_shape requestedFormat timeoutMs statusAt elapsedAt (J + 1) 0 r hcase⟩

/-- A job that never leaves `processing`. -/
def processingForever : ℕ → RenderJobStatusResponse :=
  fun _ => { status := .processing }

/-- Witness for C5: a job that never leaves `processing`, polled every
1500 ms against the default 120000 ms timeout, terminates (with the timeout
error, by the trichotomy). -/
theorem renderBuild_poll_spec_witness :
    (∃ fuel r,
      renderBuildPoll .video 120000 processingForever (fun k => k * 1500) 0 fuel
          = some r
      ∧ ((∃ j, (processingForever j).status = .completed
            ∧ r = completedOutcome .video (processingForever j))
        ∨ (∃ j, (processingForever j).status = .error
            ∧ r = .error ((strTruthy (processingForever j).error).getD
                  "Render job failed"))
        ∨ r = .error "Timed out waiting for render job to complete"))
      ∧ resolvePollIntervalMs none = 1500
      ∧ resolveTimeoutMs none = 120000 :=
  renderBuild_poll_spec .video 120000 1500 processingForever
    (fun k => k * 1500) (by norm_num) (fun k => le_refl _)

/-! ## Sprite fetch pipeline (`src/unnamed/part_007`, `useSpriteRender`) -/

/-- The published sprite-sheet geometry. -/
structure SpriteMetadata where
  cols : ℕ
  rows : ℕ
  totalFrames : ℕ
  deriving DecidableEq, Repr

/-- The state updates issued by `fetchRenderSprite`, in program order. -/
inductive SpriteEvent
  | setIsRenderingSprite (b : Bool)
  | setRenderError (e : Option String)
  | setSpriteMetadata (m : SpriteMetadata)
  | setSpriteSrc (src : String)
  deriving DecidableEq, Repr

/-- The optional metadata record of `RenderSpriteResponse`
(`src/src/api.ts` lines 64–79). -/
structure RenderSpriteExpMetadata where
  cols : Option ℕ := none
  rows : Option ℕ := none
  totalFrames : Option ℕ := none
  deriving DecidableEq, Repr

/-- `RenderSpriteResponse` as `fetchRenderSprite` consumes it. -/
structure RenderSpriteResponse where
  metadata : Option RenderSpriteExpMetadata := none
  deriving DecidableEq, Repr

/-- `renderSpriteExperimental`, `src/src/api.ts` lines 269–310: a non-2xx
response throws, and a 2xx response always returns the hard-coded
`{cols: 12, rows: 6, totalFrames: 72}` metadata alongside the blob. -/
def renderSpriteExperimentalResult (httpResult : Except String Unit) :
    Except String RenderSpriteResponse :=
  match httpResult with
  | .ok _ =>
    .ok { metadata := some { cols := some 12, rows := some 6, totalFrames := some 72 } }
  | .error e => .error e

/-- JS truthiness of an optional number: absent, `null` and `0` are falsy. -/
def numTruthy (o : Option ℕ) : Option ℕ :=
  match o with
  | some 0 => none
  | some n => some n
  | none => none

/-- `x || fallback` on an optional number. -/
def jsOrNum (o : Option ℕ) (fallback : ℕ) : ℕ :=
  (numTruthy o).getD fallback

/-- `useSpriteRenderOptions.mode ?? "async"`. -/
inductive RenderMode
  | async | experimental
  deriving DecidableEq, Repr

/-- The network outcomes a single `fetchRenderSprite` call can observe: the
resolution or rejection message of each awaited API call, plus the object
URL created for an experimental blob. -/
structure NetworkOutcome where
  shareCodeResult : Except String String
  asyncResult : Except String String
  experimentalHttp : Except String Unit
  experimentalObjectUrl : String
  deriving Repr

/-- `fetchRenderSprite`, `src/unnamed/part_007` lines 81–186, as the ordered
list of state updates it performs: mark rendering, clear the error, then on
success publish the metadata followed by the sprite source, or on failure
publish the error message, and finally clear the rendering flag. -/
def fetchRenderSpriteEvents (input : SpriteRenderInput) (mode : RenderMode)
    (net : NetworkOutcome) : List SpriteEvent :=
  [.setIsRenderingSprite true, .setRenderError none]
    ++ (match input with
      | .shareCode _ _ _ _ _ _ fq =>
        match net.shareCodeResult with
        | .ok spriteUrl =>
          let rows : ℕ := if fq = some .high then 12 else 6
          [.setSpriteMetadata ⟨12, rows, 12 * rows⟩, .setSpriteSrc spriteUrl]
        | .error e => [.setRenderError (some e)]
      | .parts _ _ _ _ _ fq =>
        let rows : ℕ := if fq = some .high then 12 else 6
        match mode with
        | .experimental =>
          match renderSpriteExperimentalResult net.experimentalHttp with
          | .ok response =>
            [.setSpriteMetadata
                ⟨jsOrNum (response.metadata.bind (·.cols)) 12,
                 jsOrNum (response.metadata.bind (·.rows)) rows,
                 jsOrNum (response.metadata.bind (·.totalFrames)) (12 * rows)⟩,
             .setSpriteSrc net.experimentalObjectUrl]
          | .error e => [.setRenderError (some e)]
        | .async =>
          match net.asyncResult with
          | .ok spriteUrl =>
            [.setSpriteMetadata ⟨12, rows, 12 * rows⟩, .setSpriteSrc spriteUrl]
          | .error e => [.setRenderError (some e)])
    ++ [.setIsRenderingSprite false]

/-- The overall result of the fetch path `fetchRenderSprite` takes for a
given input and mode: the published sprite URL, or the caught message. -/
def fetchPathResult (input : SpriteRenderInput) (mode : RenderMode)
    (net : NetworkOutcome) : Except String String :=
  match input with
  | .shareCode .. => net.shareCodeResult
  | .parts .. =>
    match mode with
    | .experimental =>
      match renderSpriteExperimentalResult net.experimentalHttp with
      | .ok _ => .ok net.experimentalObjectUrl
      | .error e => .error e
    | .async => net.asyncResult

/-- Every `fetchRenderSprite` run has one of two event shapes: a successful
one publishing metadata then source, or a failing one publishing the caught
message. -/
theorem fetchRenderSpriteEvents_shape (input : SpriteRenderInput)
    (mode : RenderMode) (net : NetworkOutcome) :
    (∃ m u, fetchPathResult input mode net = .ok u
      ∧ fetchRenderSpriteEvents input mode net
        = [.setIsRenderingSprite true, .setRenderError none,
           .setSpriteMetadata m, .setSpriteSrc u, .setIsRenderingSprite false])
    ∨ (∃ e, fetchPathResult input mode net = .error e
      ∧ fetchRenderSpriteEvents input mode net
        = [.setIsRenderingSprite true, .setRenderError none,
           .setRenderError (some e), .setIsRenderingSprite false]) := by
  rcases input with ⟨p, sg, co, cz, gs, fq⟩ | ⟨sc, pr, sg, co, cz, gs, fq⟩
  · rcases mode with _ | _
    · rcases hres : net.asyncResult with e | u
      · refine Or.inr ⟨e, ?_, ?_⟩ <;>
          simp [fetchPathResult, fetchRenderSpriteEvents, hres]
      · refine Or.inl
          ⟨⟨12, if fq = some FrameQuality.high then 12 else 6,
             12 * if fq = some FrameQuality.high then 12 else 6⟩, u, ?_, ?_⟩ <;>
          simp [fetchPathResult, fetchRenderSpriteEvents, hres]
    · rcases hres : net.experimentalHttp with e | u
      · refine Or.inr ⟨e, ?_, ?_⟩ <;>
          simp [fetchPathResult, fetchRenderSpriteEvents, hres,
            renderSpriteExperimentalResult]
      · refine Or.inl ⟨⟨12, 6, 72⟩, net.experimentalObjectUrl, ?_, ?_⟩ <;>
          simp [fetchPathResult, fetchRenderSpriteEvents, hres,
            renderSpriteExperimentalResult, jsOrNum, numTruthy]
  · rcases hres : net.shareCodeResult with e | u
    · refine Or.inr ⟨e, ?_, ?_⟩ <;>
        simp [fetchPathResult, fetchRenderSpriteEvents, hres]
    · refine Or.inl
        ⟨⟨12, if fq = some FrameQuality.high then 12 else 6,
           12 * if fq = some FrameQuality.high then 12 else 6⟩, u, ?_, ?_⟩ <;>
        simp [fetchPathResult, fetchRenderSpriteEvents, hres]

/-- C4: on every fetch path (share-code, experimental and async parts-based),
the new sprite metadata is published strictly before the new image source —
every sprite-source event is preceded by a metadata event, and every
metadata event precedes every sprite-source event — so a draw can never
pair an old image with new geometry or a new image with old geometry. -/
theorem useSpriteRender_metadata_before_image (input : SpriteRenderInput)
    (mode : RenderMode) (net : NetworkOutcome) :
    (∀ (i : ℕ) (u : String), (fetchRenderSpriteEvents input mode net)[i]?
          = some (SpriteEvent.setSpriteSrc u) →
      ∃ (j : ℕ) (m : SpriteMetadata),
        j < i ∧ (fetchRenderSpriteEvents input mode net)[j]?
          = some (SpriteEvent.setSpriteMetadata m))
    ∧ (∀ (i j : ℕ) (m : SpriteMetadata) (u : String),
        (fetchRenderSpriteEvents input mode net)[i]?
            = some (SpriteEvent.setSpriteMetadata m) →
        (fetchRenderSpriteEvents input mode net)[j]?
            = some (SpriteEvent.setSpriteSrc u) →
        i < j) := by
  rcases fetchRenderSpriteEvents_shape input mode net with ⟨m, u, -, hev⟩ | ⟨e, -, hev⟩
  · rw [hev]
    constructor
    · intro i u' hi
      have hi' : i = 3 := by
        rcases i with _ | _ | _ | _ | _ | i <;> simp_all
      subst hi'
      exact ⟨2, m, by omega, by simp⟩
    · intro i j m' u' hi hj
      have hi' : i = 2 := by
        rcases i with _ | _ | _ | _ | _ | i <;> simp_all
      have hj' : j = 3 := by
        rcases j with _ | _ | _ | _ | _ | j <;> simp_all
      omega
  · rw [hev]
    constructor
    · intro i u' hi
      exfalso
      rcases i with _ | _ | _ | _ | i <;> simp_all
    · intro i j m' u' hi hj
      exfalso
      rcases j with _ | _ | _ | _ | j <;> simp_all

/-- The defaulted metadata: `{12, 6, 72}` for standard frame quality,
`{12, 12, 144}` for high. -/
def defaultSpriteMetadata (fq : Option FrameQuality) : SpriteMetadata :=
  let rows : ℕ := if fq = some .high then 12 else 6
  ⟨12, rows, 12 * rows⟩

/-- A high-frame-quality parts input. -/
def expHighInput : SpriteRenderInput :=
  .parts { parts := [(.CPU, ["7xjqsomhr"])] } none none none none (some .high)

/-- A network in which every call succeeds. -/
def allOkNetwork : NetworkOutcome :=
  { shareCodeResult := .ok "https://cdn/sprite.webp"
    asyncResult := .ok "https://cdn/sprite.webp"
    experimentalHttp := .ok ()
    experimentalObjectUrl := "blob:exp" }

/-- Counterexample to C9: on the experimental path with `frameQuality:
"high"`, the published metadata is `{12, 6, 72}` — the hard-coded
experimental response metadata — not the claimed `{12, 12, 144}`. -/
theorem spriteMetadata_experimental_high_cex :
    SpriteEvent.setSpriteMetadata ⟨12, 6, 72⟩
        ∈ fetchRenderSpriteEvents expHighInput .experimental allOkNetwork
      ∧ SpriteEvent.setSpriteMetadata ⟨12, 12, 144⟩
        ∉ fetchRenderSpriteEvents expHighInput .experimental allOkNetwork := by
  constructor <;> decide

/-- C9 (amended): when the service reports no sprite metadata, the published
metadata defaults to `{12, 6, 72}` for standard frame quality and
`{12, 12, 144}` for high on the share-code and async parts-based paths; the
experimental path always publishes `{12, 6, 72}` regardless of frame
quality, because `renderSpriteExperimental` itself fills in that grid. -/
theorem spriteMetadata_defaults (net : NetworkOutcome) (p : RenderBuildRequest)
    (sc : String) (pr : Option RenderProfile) (sg : Option Bool)
    (co cz : Option ℚ) (gs : Option GridSettings) (fq : Option FrameQuality)
    (mode : RenderMode) :
    (∀ u, net.shareCodeResult = .ok u →
      SpriteEvent.setSpriteMetadata (defaultSpriteMetadata fq)
        ∈ fetchRenderSpriteEvents (.shareCode sc pr sg co cz gs fq) mode net)
    ∧ (∀ u, net.asyncResult = .ok u →
      SpriteEvent.setSpriteMetadata (defaultSpriteMetadata fq)
        ∈ fetchRenderSpriteEvents (.parts p sg co cz gs fq) .async net)
    ∧ (net.experimentalHttp = .ok () →
      SpriteEvent.setSpriteMetadata ⟨12, 6, 72⟩
        ∈ fetchRenderSpriteEvents (.parts p sg co cz gs fq) .experimental net) := by
  refine ⟨?_, ?_, ?_⟩
  · intro u hok
    simp [fetchRenderSpriteEvents, hok, defaultSpriteMetadata]
  · intro u hok
    simp [fetchRenderSpriteEvents, hok, defaultSpriteMetadata]
  · intro hok
    simp [fetchRenderSpriteEvents, hok, renderSpriteExperimentalResult,
      jsOrNum, numTruthy]

/-! ## Viewer state machine (`src/src/BuildRender.tsx`, `src/unnamed/part_004`) -/

/-- The per-instance viewer state: the drag bookkeeping of
`useSpriteScrubbing` (`src/unnamed/part_004` lines 50–54), the
`hasDragged` latch, and `BuildRender`'s `img`/`isLoading`/`bouncingAllowed`
flags. -/
structure ViewerState where
  hasDragged : Bool := false
  isDragging : Bool := false
  dragStartX : ℚ := 0
  dragStartFrame : ℚ := 0
  currentFrame : ℚ := 0
  img : Bool := false
  isLoading : Bool := true
  bouncingAllowed : Bool := false
  deriving DecidableEq, Repr

/-- The operations that touch the viewer state. -/
inductive ViewerEvent
  | mouseDown (clientX : ℚ)
  | touchStartDrag (clientX : ℚ)
  | wheel
  | pinchStart
  | dragMove (clientX : ℚ) (sensitivity : ℚ)
  | dragEnd
  | spriteSrcChange
  | imageLoaded
  | imageLoadFailed
  | bounceAllowedTimer
  | bounceTick (progressValue : ℚ)
  | spinTick (frame nextFrame blend : ℚ)
  deriving DecidableEq, Repr

/-- One viewer operation.
* `mouseDown`/`touchStartDrag`: `startDrag`, `src/unnamed/part_004` lines
  57–68 — handlers exist only on an interactive canvas with an image
  (`src/src/BuildRender.tsx` lines 337–341), and set `hasDragged`.
* `wheel`/`pinchStart`: `src/src/BuildRender.tsx` lines 288, 306–324 —
  interactive only; set `hasDragged`.
* `dragMove`: `handleDragMove`, `src/unnamed/part_004` lines 71–94.
* `dragEnd`: `endDrag`, lines 97–99.
* `spriteSrcChange`: the sprite-load effect, `src/src/BuildRender.tsx`
  lines 106–117 (clears the image; `hasDragged` untouched).
* `imageLoaded`/`imageLoadFailed`: the `onload`/`onerror` handlers, lines
  123–136 (neither touches `renderError` or `hasDragged`).
* `bounceAllowedTimer`: the 2 s timer, lines 129–131.
* `bounceTick`/`spinTick`: the auto-rotate effect, lines 237–250, guarded by
  `(interactive && hasDragged.current) || !img`. -/
def viewerStep (interactive : Bool) (total : ℚ) (s : ViewerState) :
    ViewerEvent → ViewerState
  | .mouseDown x | .touchStartDrag x =>
    if interactive && s.img then
      { s with isDragging := true, dragStartX := x,
               dragStartFrame := s.currentFrame, hasDragged := true }
    else s
  | .wheel | .pinchStart =>
    if interactive then { s with hasDragged := true } else s
  | .dragMove x sensitivity =>
    if s.isDragging && s.img then
      let newFrame :=
        calculateCircularFrame s.dragStartFrame (x - s.dragStartX) sensitivity total
      { s with currentFrame := newFrame }
    else s
  | .dragEnd => { s with isDragging := false }
  | .spriteSrcChange => { s with img := false, isLoading := true, bouncingAllowed := false }
  | .imageLoaded => { s with img := true, isLoading := false }
  | .imageLoadFailed => { s with img := false, isLoading := false }
  | .bounceAllowedTimer => { s with bouncingAllowed := true }
  | .bounceTick progressValue =>
    if (interactive && s.hasDragged) || !s.img then s
    else { s with currentFrame := jsMod (progressValue / 5 * total) total }
  | .spinTick frame _ _ =>
    if (interactive && s.hasDragged) || !s.img then s
    else { s with currentFrame := frame }

/-- C7: `hasDragged` is a one-way latch — set by the first drag-start or
wheel/pinch in interactive mode, and reset by no operation whatsoever,
including asset reloads — and once it is set in interactive mode (drag
active or not), neither the bounce driver nor the spin driver alters the
frame. -/
theorem hasDragged_latch (interactive : Bool) (total : ℚ) :
    (∀ (s : ViewerState) (e : ViewerEvent), s.hasDragged = true →
      (viewerStep interactive total s e).hasDragged = true)
  ∧ (∀ (s : ViewerState) (x : ℚ), interactive = true → s.img = true →
      (viewerStep interactive total s (.mouseDown x)).hasDragged = true
      ∧ (viewerStep interactive total s (.touchStartDrag x)).hasDragged = true)
  ∧ (∀ s : ViewerState, interactive = true →
      (viewerStep interactive total s .wheel).hasDragged = true
      ∧ (viewerStep interactive total s .pinchStart).hasDragged = true)
  ∧ (∀ (s : ViewerState) (v f nf b : ℚ),
      s.hasDragged = true → interactive = true → s.isDragging = false →
      (viewerStep interactive total s (.bounceTick v)).currentFrame = s.currentFrame
      ∧ (viewerStep interactive total s (.spinTick f nf b)).currentFrame
          = s.currentFrame) := by
  refine ⟨?_, ?_, ?_, ?_⟩
  · intro s e h
    cases e <;> simp only [viewerStep] <;> (try split_ifs) <;> simp [h]
  · intro s x hint himg
    constructor <;> simp [viewerStep, hint, himg]
  · intro s hint
    constructor <;> simp [viewerStep, hint]
  · intro s v f nf b h hint _
    constructor <;> simp [viewerStep, hint, h]

/-! ## Error propagation and display
(`src/unnamed/part_007` lines 177–184, `src/src/BuildRender.tsx` lines
326–363, `src/src/components/LoadingErrorOverlay.tsx`) -/

/-- The state owned by `useSpriteRender`. -/
structure UseSpriteRenderState where
  spriteSrc : Option String := none
  isRenderingSprite : Bool := false
  renderError : Option String := none
  spriteMetadata : Option SpriteMetadata := none
  deriving DecidableEq, Repr

/-- Apply one state update. -/
def applySpriteEvent (s : UseSpriteRenderState) (e : SpriteEvent) :
    UseSpriteRenderState :=
  match e with
  | .setIsRenderingSprite b => { s with isRenderingSprite := b }
  | .setRenderError v => { s with renderError := v }
  | .setSpriteMetadata m => { s with spriteMetadata := some m }
  | .setSpriteSrc u => { s with spriteSrc := some u }

def applySpriteEvents (s : UseSpriteRenderState) (evs : List SpriteEvent) :
    UseSpriteRenderState :=
  evs.foldl applySpriteEvent s

/-- The `useSpriteRender` effect (`src/unnamed/part_007` lines 218–226): run
`fetchRenderSprite` and remember the input exactly when the gate fires. -/
def useSpriteRenderEffect (prev : Option SpriteRenderInput)
    (s : UseSpriteRenderState) (input : SpriteRenderInput) (mode : RenderMode)
    (net : NetworkOutcome) : Option SpriteRenderInput × UseSpriteRenderState :=
  if spriteShouldFetch prev input then
    (some input, applySpriteEvents s (fetchRenderSpriteEvents input mode net))
  else
    (prev, s)

/-- What the component displays. -/
inductive DisplayedView
  | errorPanel (msg : String)
  | loadingPanel
  | canvasImage
  | blank
  deriving DecidableEq, Repr

/-- `BuildRender`'s visible content: the overlay — an opaque
(`rgba(0,0,0,1)`), container-filling panel at z-index 10 — is shown when
loading, fetching, or `renderError` is truthy, displaying the error text
when present and the loading text otherwise; only when it is hidden does the
canvas image (when decoded) show (`src/src/BuildRender.tsx` lines 326–363,
`src/src/components/LoadingErrorOverlay.tsx` lines 14–60). -/
def buildRenderView (img isLoading : Bool) (s : UseSpriteRenderState) :
    DisplayedView :=
  if isLoading || s.isRenderingSprite || (strTruthy s.renderError).isSome then
    match strTruthy s.renderError with
    | some m => .errorPanel m
    | none => .loadingPanel
  else if img then .canvasImage
  else .blank

/-- `areInputsEqual` is reflexive on a present previous input. -/
theorem areInputsEqual_refl (a : SpriteRenderInput) :
    areInputsEqual (some a) a = true := by
  rcases a with ⟨p, sg, co, cz, gs, fq⟩ | ⟨sc, pr, sg, co, cz, gs, fq⟩ <;>
    simp [areInputsEqual, gridSettingsJsonEqual, arePartsEqual_iff]

/-- A hook state holding a previously displayed sprite and no error. -/
def decodeFailHookState : UseSpriteRenderState :=
  { spriteSrc := some "blob:sprite-a", isRenderingSprite := false,
    renderError := none, spriteMetadata := some ⟨12, 6, 72⟩ }

/-- Counterexample to C10: a decode failure (the image element's `onerror`)
only clears the image and the loading flag — `renderError` stays `none` and
the view falls back to a blank box, not to an error overlay, so decode
failures are not surfaced as a renderError string. -/
theorem renderError_decode_cex :
    viewerStep true 72 { img := false, isLoading := true } .imageLoadFailed
        = { img := false, isLoading := false }
      ∧ decodeFailHookState.renderError = none
      ∧ buildRenderView false false decodeFailHookState = .blank := by
  refine ⟨rfl, rfl, rfl⟩

/-- C10 (amended): every failure of the fetch pipeline (request creation,
transport, job error, not-found, timeout) is surfaced as the single
`renderError` string and leaves the previous sprite source untouched; an
equal input never re-fetches (no automatic retry); a truthy `renderError`
makes the opaque overlay replace whatever was displayed; a decode failure is
not surfaced — it only clears the image and loading flag; and a fetch issued
for a different input resets the error, leaving it cleared on success. -/
theorem renderError_policy (prev : Option SpriteRenderInput)
    (s : UseSpriteRenderState) (input : SpriteRenderInput) (mode : RenderMode)
    (net : NetworkOutcome) :
    (∀ msg, fetchPathResult input mode net = .error msg →
      spriteShouldFetch prev input = true →
      (useSpriteRenderEffect prev s input mode net).2.renderError = some msg
      ∧ (useSpriteRenderEffect prev s input mode net).2.spriteSrc = s.spriteSrc)
  ∧ (∀ a : SpriteRenderInput, useSpriteRenderEffect (some a) s a mode net = (some a, s))
  ∧ (∀ (img isLoading : Bool) (m : String), s.renderError = some m → m ≠ "" →
      buildRenderView img isLoading s = .errorPanel m)
  ∧ (∀ (interactive : Bool) (total : ℚ) (vs : ViewerState),
      viewerStep interactive total vs .imageLoadFailed
        = { vs with img := false, isLoading := false })
  ∧ (∀ u, fetchPathResult input mode net = .ok u →
      spriteShouldFetch prev input = true →
      (useSpriteRenderEffect prev s input mode net).2.renderError = none
      ∧ (useSpriteRenderEffect prev s input mode net).2.spriteSrc = some u) := by
  refine ⟨?_, ?_, ?_, ?_, ?_⟩
  · intro msg hmsg hfetch
    rcases fetchRenderSpriteEvents_shape input mode net with ⟨m, u, hok, hev⟩ | ⟨e, herr, hev⟩
    · rw [hok] at hmsg
      exact absurd hmsg (by simp)
    · rw [herr] at hmsg
      have he : e = msg := by injection hmsg
      subst he
      simp [useSpriteRenderEffect, hfetch, hev, applySpriteEvents, applySpriteEvent]
  · intro a
    simp [useSpriteRenderEffect, spriteShouldFetch, areInputsEqual_refl]
  · intro img isLoading m hm hne
    simp [buildRenderView, strTruthy, hm, hne]
  · intro interactive total vs
    rfl
  · intro u hu hfetch
    rcases fetchRenderSpriteEvents_shape input mode net with ⟨m, u', hok, hev⟩ | ⟨e, herr, hev⟩
    · rw [hok] at hu
      have hu' : u' = u := by injection hu
      subst hu'
      simp [useSpriteRenderEffect, hfetch, hev, applySpriteEvents, applySpriteEvent]
    · rw [herr] at hu
      exact absurd hu (by simp)

/-! ## Bounce animation driver (`src/src/hooks/useProgressOneSecond.ts`) -/

/-- The state of `useBouncePatternProgress`: the epoch captured on the first
enabled tick, and the published outputs. -/
structure BounceState where
  start : Option ℚ := none
  value : ℚ := 0
  isBouncing : Bool := false
  deriving DecidableEq, Repr

/-- One `useAnimationFrame` callback of `useBouncePatternProgress`
(`src/src/hooks/useProgressOneSecond.ts` lines 9–40) at timestamp `t`. -/
def useBouncePatternProgressTick (enabled : Bool) (t : ℚ) (s : BounceState) :
    BounceState :=
  if !enabled then
    if s.start ≠ none then { start := none, value := 0, isBouncing := false } else s
  else
    let start := s.start.getD t
    let elapsed := jsMod (t - start) 3000
    let bouncing := decide (elapsed < 1000)
    let progress : ℚ :=
      if elapsed < 500 then elapsed / 500
      else if elapsed < 1000 then 1 - (elapsed - 500) / 500
      else 0
    { start := some start, value := progress, isBouncing := bouncing }

/-- A remainder below the modulus is itself. -/
theorem jsMod_of_nonneg_lt (x y : ℚ) (h0 : 0 ≤ x) (hy : 0 < y) (hxy : x < y) :
    jsMod x y = x := by
  have hq0 : 0 ≤ x / y := div_nonneg h0 hy.le
  have hq1 : x / y < 1 := (div_lt_one hy).mpr hxy
  have hfl : ⌊x / y⌋ = 0 := Int.floor_eq_zero_iff.mpr (Set.mem_Ico.mpr ⟨hq0, hq1⟩)
  simp [jsMod, jsTrunc, hq0, hfl]

/-- C8: sampling the bounce driver at 0, 250, 500, 750, 1000, 2000 and
2999 ms after its epoch yields 0, ½, 1, ½, 0, 0, 0 (linear 0→1 over the
first 500 ms, 1→0 over the next 500 ms, 0 for the rest of the 3000 ms
period); `isBouncing` holds exactly when the position within the period is
under 1000 ms; a disabled tick resets the output to `{value: 0, isBouncing:
false}` (and is a no-op when already reset); and the first enabled tick
starts a fresh epoch at the tick's own timestamp. -/
theorem bounce_cycle_spec :
    (∀ (t0 v : ℚ) (b : Bool),
      (useBouncePatternProgressTick true (t0 + 0) ⟨some t0, v, b⟩).value = 0
      ∧ (useBouncePatternProgressTick true (t0 + 250) ⟨some t0, v, b⟩).value = 1 / 2
      ∧ (useBouncePatternProgressTick true (t0 + 500) ⟨some t0, v, b⟩).value = 1
      ∧ (useBouncePatternProgressTick true (t0 + 750) ⟨some t0, v, b⟩).value = 1 / 2
      ∧ (useBouncePatternProgressTick true (t0 + 1000) ⟨some t0, v, b⟩).value = 0
      ∧ (useBouncePatternProgressTick true (t0 + 2000) ⟨some t0, v, b⟩).value = 0
      ∧ (useBouncePatternProgressTick true (t0 + 2999) ⟨some t0, v, b⟩).value = 0)
  ∧ (∀ (t0 e v : ℚ) (b : Bool),
      (useBouncePatternProgressTick true (t0 + e) ⟨some t0, v, b⟩).isBouncing = true
        ↔ jsMod e 3000 < 1000)
  ∧ (∀ (s : BounceState) (t : ℚ), s.start ≠ none →
      useBouncePatternProgressTick false t s = ⟨none, 0, false⟩)
  ∧ (∀ (s : BounceState) (t : ℚ), s.start = none →
      useBouncePatternProgressTick false t s = s)
  ∧ (∀ (t v : ℚ) (b : Bool),
      useBouncePatternProgressTick true t ⟨none, v, b⟩ = ⟨some t, 0, true⟩) := by
  have hsample : ∀ (t0 x : ℚ), 0 ≤ x → x < 3000 → ∀ (v : ℚ) (b : Bool),
      useBouncePatternProgressTick true (t0 + x) ⟨some t0, v, b⟩
        = ⟨some t0,
            if x < 500 then x / 500
            else if x < 1000 then 1 - (x - 500) / 500
            else 0,
            decide (x < 1000)⟩ := by
    intro t0 x h0 h3000 v b
    have he : jsMod x 3000 = x := jsMod_of_nonneg_lt x 3000 h0 (by norm_num) h3000
    simp [useBouncePatternProgressTick, he]
  refine ⟨?_, ?_, ?_, ?_, ?_⟩
  · intro t0 v b
    refine ⟨?_, ?_, ?_, ?_, ?_, ?_, ?_⟩ <;>
      rw [hsample t0 _ (by norm_num) (by norm_num) v b] <;> norm_num
  · intro t0 e v b
    have he : t0 + e - t0 = e := add_sub_cancel_left t0 e
    simp [useBouncePatternProgressTick, he]
  · intro s t h
    simp [useBouncePatternProgressTick, h]
  · intro s t h
    simp [useBouncePatternProgressTick, h]
  · intro t v b
    have he : jsMod (0 : ℚ) 3000 = 0 :=
      jsMod_of_nonneg_lt 0 3000 le_rfl (by norm_num) (by norm_num)
    simp [useBouncePatternProgressTick, he]

/-! ## Sprite source-rectangle extraction (`src/src/BuildRender.tsx`
lines 148–219, `draw`/`drawFrame`) -/

/-- The source rectangle `(sx, sy, sw, sh)` that `drawFrame` samples for a
frame index: `frameW = imageWidth/cols`, `frameH = imageHeight/rows`,
`n = Math.round(frameIndex) % total` wrapped nonnegative, `r =
Math.floor(n/cols)`, `c = n % cols`, and all four rect components passed
through `Math.round`. -/
def drawFrameSourceRect (imageW imageH cols rows total frameIdx : ℚ) :
    ℚ × ℚ × ℚ × ℚ :=
  let frameW := imageW / cols
  let frameH := imageH / rows
  let sw : ℤ := jsRound frameW
  let sh : ℤ := jsRound frameH
  let nRem : ℚ := jsMod ((jsRound frameIdx : ℤ) : ℚ) total
  let n : ℚ := if nRem < 0 then nRem + total else nRem
  let r : ℤ := ⌊n / cols⌋
  let c : ℚ := jsMod n cols
  let sx : ℤ := jsRound (c * frameW)
  let sy : ℤ := jsRound ((r : ℚ) * frameH)
  ((sx : ℚ), (sy : ℚ), (sw : ℚ), (sh : ℚ))

/-- `Math.round` of an integer is itself. -/
theorem jsRound_intCast (m : ℤ) : jsRound ((m : ℤ) : ℚ) = m := by
  rw [jsRound]
  refine Int.floor_eq_iff.mpr ⟨by norm_num, by norm_num⟩

/-- The JS remainder of an integer by a positive integer modulus, wrapped
nonnegative, is the Euclidean remainder. -/
theorem jsMod_intCast_wrap (j : ℤ) (t : ℕ) (ht : 0 < t) :
    (if jsMod ((j : ℤ) : ℚ) ((t : ℕ) : ℚ) < 0
      then jsMod ((j : ℤ) : ℚ) ((t : ℕ) : ℚ) + ((t : ℕ) : ℚ)
      else jsMod ((j : ℤ) : ℚ) ((t : ℕ) : ℚ)) = ((j % (t : ℤ) : ℤ) : ℚ) := by
  have htQ : (0 : ℚ) < (t : ℚ) := by exact_mod_cast ht
  rw [jsMod_wrap_eq _ _ htQ, Rat.floor_intCast_div_natCast, Int.emod_def]
  push_cast
  ring

/-- The JS remainder of a nonnegative integer by a positive integer modulus
is the Euclidean remainder directly. -/
theorem jsMod_intCast_nonneg (a : ℤ) (b : ℕ) (ha : 0 ≤ a) (hb : 0 < b) :
    jsMod ((a : ℤ) : ℚ) ((b : ℕ) : ℚ) = ((a % (b : ℤ) : ℤ) : ℚ) := by
  have hbQ : (0 : ℚ) < (b : ℚ) := by exact_mod_cast hb
  have haQ : (0 : ℚ) ≤ (a : ℚ) := by exact_mod_cast ha
  have h0 : (0 : ℚ) ≤ (a : ℚ) / (b : ℚ) := div_nonneg haQ hbQ.le
  rw [jsMod, jsTrunc, if_pos h0, Rat.floor_intCast_div_natCast, Int.emod_def]
  push_cast
  ring

/-- Counterexample to C6: a 7-pixel-wide sheet with 2 columns. The frame
width 3.5 rounds to 4 and the second column's x-offset 3.5 also rounds to
4, so the source rectangle of frame 1 is `(4, 0, 4, 3)` and
`x + width = 8 > 7 = imageWidth`. -/
theorem drawFrame_source_rect_cex :
    drawFrameSourceRect 7 3 2 1 2 1 = (4, 0, 4, 3)
      ∧ ¬((4 : ℚ) + 4 ≤ 7) := by
  constructor
  · norm_num [drawFrameSourceRect, jsRound, jsMod, jsTrunc]
  · norm_num

/-- C6 (amended): all four source-rect components are integers for every
input, and whenever the sheet divides evenly into the grid (`cols ∣
imageWidth`, `rows ∣ imageHeight`) with `total ≤ cols·rows`, the rectangle
of every frame index (any real, after rounding and circular wrap) stays
inside the image: `0 ≤ x`, `0 ≤ y`, `x + width ≤ imageWidth` and
`y + height ≤ imageHeight`. -/
theorem drawFrame_source_rect_spec (W H cols rows total : ℕ) (frameIdx : ℚ)
    (hc : 0 < cols) (hr : 0 < rows) (ht : 0 < total) (htc : total ≤ cols * rows)
    (hWdvd : cols ∣ W) (hHdvd : rows ∣ H) :
    ∃ sx sy sw sh : ℤ,
      drawFrameSourceRect W H cols rows total frameIdx
        = ((sx : ℚ), (sy : ℚ), (sw : ℚ), (sh : ℚ))
      ∧ 0 ≤ sx ∧ 0 ≤ sy
      ∧ (sx : ℚ) + (sw : ℚ) ≤ (W : ℚ)
      ∧ (sy : ℚ) + (sh : ℚ) ≤ (H : ℚ) := by
  obtain ⟨fw, hfw⟩ := hWdvd
  obtain ⟨fh, hfh⟩ := hHdvd
  have hcQ : (0 : ℚ) < (cols : ℚ) := by exact_mod_cast hc
  have hrQ : (0 : ℚ) < (rows : ℚ) := by exact_mod_cast hr
  have hcZ : (0 : ℤ) < (cols : ℤ) := by exact_mod_cast hc
  have hrZ : (0 : ℤ) < (rows : ℤ) := by exact_mod_cast hr
  have htZ : (0 : ℤ) < (total : ℤ) := by exact_mod_cast ht
  have hfrW : (W : ℚ) / (cols : ℚ) = ((fw : ℤ) : ℚ) := by
    have hWQ : (W : ℚ) = (cols : ℚ) * ((fw : ℤ) : ℚ) := by push_cast [hfw]; ring
    rw [hWQ, mul_div_cancel_left₀ _ (ne_of_gt hcQ)]
  have hfrH : (H : ℚ) / (rows : ℚ) = ((fh : ℤ) : ℚ) := by
    have hHQ : (H : ℚ) = (rows : ℚ) * ((fh : ℤ) : ℚ) := by push_cast [hfh]; ring
    rw [hHQ, mul_div_cancel_left₀ _ (ne_of_gt hrQ)]
  have hM0 : 0 ≤ jsRound frameIdx % (total : ℤ) :=
    Int.emod_nonneg _ (ne_of_gt htZ)
  have hMt : jsRound frameIdx % (total : ℤ) < total :=
    Int.emod_lt_of_pos _ htZ
  have hC0 : 0 ≤ jsRound frameIdx % (total : ℤ) % (cols : ℤ) :=
    Int.emod_nonneg _ (ne_of_gt hcZ)
  have hCc : jsRound frameIdx % (total : ℤ) % (cols : ℤ) < cols :=
    Int.emod_lt_of_pos _ hcZ
  have hr0 : 0 ≤ jsRound frameIdx % (total : ℤ) / (cols : ℤ) :=
    Int.ediv_nonneg hM0 hcZ.le
  have hrrows : jsRound frameIdx % (total : ℤ) / (cols : ℤ) < rows := by
    rw [Int.ediv_lt_iff_lt_mul hcZ]
    have h1 : (total : ℤ) ≤ (cols : ℤ) * (rows : ℤ) := by exact_mod_cast htc
    have h2 : (cols : ℤ) * (rows : ℤ) = (rows : ℤ) * (cols : ℤ) := mul_comm _ _
    linarith
  have hfw0 : (0 : ℤ) ≤ (fw : ℤ) := Int.natCast_nonneg fw
  have hfh0 : (0 : ℤ) ≤ (fh : ℤ) := Int.natCast_nonneg fh
  refine ⟨jsRound frameIdx % (total : ℤ) % (cols : ℤ) * (fw : ℤ),
          jsRound frameIdx % (total : ℤ) / (cols : ℤ) * (fh : ℤ),
          (fw : ℤ), (fh : ℤ), ?_, mul_nonneg hC0 hfw0, mul_nonneg hr0 hfh0,
          ?_, ?_⟩
  · simp only [drawFrameSourceRect]
    rw [jsMod_intCast_wrap (jsRound frameIdx) total ht,
      jsMod_intCast_nonneg _ cols hM0 hc, Rat.floor_intCast_div_natCast,
      hfrW, hfrH, ← Int.cast_mul, ← Int.cast_mul, jsRound_intCast,
      jsRound_intCast, jsRound_intCast, jsRound_intCast]
  · have hWZ : ((W : ℕ) : ℤ) = (cols : ℤ) * (fw : ℤ) := by exact_mod_cast hfw
    have hstep : (jsRound frameIdx % (total : ℤ) % (cols : ℤ) + 1) * (fw : ℤ)
        ≤ (cols : ℤ) * (fw : ℤ) :=
      mul_le_mul_of_nonneg_right (by omega) hfw0
    have : jsRound frameIdx % (total : ℤ) % (cols : ℤ) * (fw : ℤ) + (fw : ℤ)
        ≤ ((W : ℕ) : ℤ) := by
      rw [hWZ]
      nlinarith
    exact_mod_cast this
  · have hHZ : ((H : ℕ) : ℤ) = (rows : ℤ) * (fh : ℤ) := by exact_mod_cast hfh
    have hstep : (jsRound frameIdx % (total : ℤ) / (cols : ℤ) + 1) * (fh : ℤ)
        ≤ (rows : ℤ) * (fh : ℤ) :=
      mul_le_mul_of_nonneg_right (by omega) hfh0
    have : jsRound frameIdx % (total : ℤ) / (cols : ℤ) * (fh : ℤ) + (fh : ℤ)
        ≤ ((H : ℕ) : ℤ) := by
      rw [hHZ]
      nlinarith
    exact_mod_cast this

/-- Witness for C6 at a 144-frame 1200×1200 sheet split 12×12: frame 100's
rectangle stays inside the image. -/
theorem drawFrame_source_rect_spec_witness :
    ∃ sx sy sw sh : ℤ,
      drawFrameSourceRect 1200 1200 12 12 144 100
        = ((sx : ℚ), (sy : ℚ), (sw : ℚ), (sh : ℚ))
      ∧ 0 ≤ sx ∧ 0 ≤ sy
      ∧ (sx : ℚ) + (sw : ℚ) ≤ ((1200 : ℕ) : ℚ)
      ∧ (sy : ℚ) + (sh : ℚ) ≤ ((1200 : ℕ) : ℚ) := by
  have h := drawFrame_source_rect_spec 1200 1200 12 12 144 100
    (by norm_num) (by norm_num) (by norm_num) (by norm_num)
    (by norm_num) (by norm_num)
  simpa using h

end RenderClient
